import Mathlib

/-!
Verification development for the Crowdio foreman (distributed task broker).

The Python source is shallowly embedded: dictionaries become association
lists with first-match lookup, `set` becomes `Finset String`, SQL `UPDATE`
statements become row maps filtered on the primary key, and the per-call
mutation of the database session becomes explicit state passing.  Network
emission outcomes are passed in as a boolean-valued parameter, and the
pluggable scheduler policies are passed in as selection functions, exactly
matching their call interface in the source.
-/

/-- Python `dict` lookup on the association-list model: the dictionary holds at
most one binding per key; lookup returns the first binding. -/
def dictGet {κ α : Type} [DecidableEq κ] : List (κ × α) → κ → Option α
  | [], _ => none
  | p :: ps, k => if p.1 = k then some p.2 else dictGet ps k

/-- Python `d[k] = v`: replace the binding in place when the key is present,
append it otherwise. -/
def dictSet {κ α : Type} [DecidableEq κ] : List (κ × α) → κ → α → List (κ × α)
  | [], k, v => [(k, v)]
  | p :: ps, k, v => if p.1 = k then (k, v) :: ps else p :: dictSet ps k v

/-- Python `del d[k]` (no error path modelled: callers guard membership). -/
def dictDel {κ α : Type} [DecidableEq κ] : List (κ × α) → κ → List (κ × α)
  | [], _ => []
  | p :: ps, k => if p.1 = k then dictDel ps k else p :: dictDel ps k

/-- Python truthiness of an optional string: `None` and `""` are falsy. -/
def pyTruthyStr : Option String → Bool
  | none => false
  | some s => s ≠ ""

/-- Python `completed_count or old`: `None` and `0` are falsy, so either keeps `old`. -/
def pyOrNat : Option Nat → Nat → Nat
  | none, old => old
  | some n, old => if n = 0 then old else n

/-- `foreman/core/connection_manager.py`: the in-memory registry.  Websocket
handles are opaque; they are modelled as natural numbers. -/
structure ConnectionManager where
  workers : List (String × Nat)
  clients : List (String × Nat)
  jobWebsockets : List (String × Nat)
  availableWorkers : Finset String
deriving DecidableEq

/-- `ConnectionManager.add_worker`: register the connection and add the worker
to the available set. -/
def addWorker (cm : ConnectionManager) (wid : String) (ws : Nat) : ConnectionManager :=
  { cm with workers := dictSet cm.workers wid ws,
            availableWorkers := insert wid cm.availableWorkers }

/-- `ConnectionManager.remove_worker`: delete the connection and discard the
worker from the available set; reports whether the worker was present. -/
def removeWorker (cm : ConnectionManager) (wid : String) : ConnectionManager × Bool :=
  if (dictGet cm.workers wid).isSome then
    ({ cm with workers := dictDel cm.workers wid,
               availableWorkers := cm.availableWorkers.erase wid }, true)
  else (cm, false)

/-- `ConnectionManager.mark_worker_available`: guarded by registration. -/
def markWorkerAvailable (cm : ConnectionManager) (wid : String) : ConnectionManager :=
  if (dictGet cm.workers wid).isSome then
    { cm with availableWorkers := insert wid cm.availableWorkers }
  else cm

/-- `ConnectionManager.mark_worker_busy`: unconditional discard. -/
def markWorkerBusy (cm : ConnectionManager) (wid : String) : ConnectionManager :=
  { cm with availableWorkers := cm.availableWorkers.erase wid }

/-- `ConnectionManager.get_worker_websocket`. -/
def getWorkerWebsocket (cm : ConnectionManager) (wid : String) : Option Nat :=
  dictGet cm.workers wid

/-- `ConnectionManager.find_worker_by_websocket`: linear scan over the map. -/
def findWorkerByWebsocket (cm : ConnectionManager) (ws : Nat) : Option String :=
  (cm.workers.find? (fun p => p.2 = ws)).map Prod.fst

/-- `ConnectionManager.add_client`: registers the connection under the job id
in both client maps. -/
def addClient (cm : ConnectionManager) (jobId : String) (ws : Nat) : ConnectionManager :=
  { cm with clients := dictSet cm.clients jobId ws,
            jobWebsockets := dictSet cm.jobWebsockets jobId ws }

/-- `ConnectionManager.get_client_websocket`. -/
def getClientWebsocket (cm : ConnectionManager) (jobId : String) : Option Nat :=
  dictGet cm.jobWebsockets jobId

/-- `ConnectionManager.clear_all`. -/
def clearAll (_cm : ConnectionManager) : ConnectionManager :=
  { workers := [], clients := [], jobWebsockets := [], availableWorkers := ∅ }

/-- `ConnectionManager.get_busy_worker_count`: Python subtraction of two
lengths, an integer that could in principle go negative. -/
def getBusyWorkerCount (cm : ConnectionManager) : Int :=
  (cm.workers.length : Int) - (cm.availableWorkers.card : Int)

/-- The registry invariant: every available worker is a key of the worker map. -/
def ConnWF (cm : ConnectionManager) : Prop :=
  ∀ w ∈ cm.availableWorkers, (dictGet cm.workers w).isSome

/-- `common/protocol.py` `MessageType`: the tag enumeration. -/
inductive MessageType
  | submitJob | getResults | disconnect
  | assignTask | ping | resumeTask
  | taskResult | taskError | workerReady | workerHeartbeat | pong | taskCheckpoint
  | jobResults | jobError | jobAccepted | checkpointAck
deriving DecidableEq

/-- `MessageType(value)` enum lookup: `none` models the `ValueError` Python raises
for a value outside the tag set. -/
def MessageType.ofTag (s : String) : Option MessageType :=
  if s = "submit_job" then some .submitJob
  else if s = "get_results" then some .getResults
  else if s = "disconnect" then some .disconnect
  else if s = "assign_task" then some .assignTask
  else if s = "ping" then some .ping
  else if s = "resume_task" then some .resumeTask
  else if s = "task_result" then some .taskResult
  else if s = "task_error" then some .taskError
  else if s = "worker_ready" then some .workerReady
  else if s = "worker_heartbeat" then some .workerHeartbeat
  else if s = "pong" then some .pong
  else if s = "task_checkpoint" then some .taskCheckpoint
  else if s = "job_results" then some .jobResults
  else if s = "job_error" then some .jobError
  else if s = "job_accepted" then some .jobAccepted
  else if s = "checkpoint_ack" then some .checkpointAck
  else none

/-- The per-connection role of `WebSocketManager.handle_connection`. -/
inductive Role
  | client | worker
deriving DecidableEq

/-- `WebSocketManager._determine_client_type`. -/
def determineClientType : MessageType → Option Role
  | .submitJob => some .client
  | .workerReady => some .worker
  | _ => none

/-- The message types a role's handler dispatches: everything else hits the
handler's `else` branch, which only prints `Unknown message type`. -/
def roleHandles : Role → MessageType → Bool
  | .client, .submitJob => true
  | .client, .disconnect => true
  | .worker, .workerReady => true
  | .worker, .taskResult => true
  | .worker, .taskError => true
  | .worker, .pong => true
  | .worker, .taskCheckpoint => true
  | _, _ => false

/-- `ClientMessageHandler` DISCONNECT closes the websocket, after which the
connection's `async for` loop ends. -/
def handlerClosesConnection : Role → MessageType → Bool
  | .client, .disconnect => true
  | _, _ => false

/-- `WebSocketManager.handle_connection`, abstracted to the tag strings of the
incoming frames.  Returns the sequence of (role, type) pairs dispatched to a
role handler and the list of frames left unprocessed when the loop stopped
early.  A tag outside the enum raises inside `Message.from_dict`; the `except`
around the loop body prints the error and executes `break`. -/
def runConnection : Option Role → List String → List (Role × MessageType) × List String
  | _, [] => ([], [])
  | role, tag :: rest =>
    match MessageType.ofTag tag with
    | none => ([], rest)
    | some t =>
      match (match role with | some r => some r | none => determineClientType t) with
      | none => ([], rest)
      | some r =>
        if handlerClosesConnection r t then ([(r, t)], rest)
        else
          let next := runConnection (some r) rest
          ((r, t) :: next.1, next.2)

/-- `CheckpointManager._merge_delta` operates on unpickled Python values: the
cases the code distinguishes by `isinstance` are structured mappings
(`dict`, with payload values of an arbitrary type `α`), one-dimensional
numeric arrays, and everything else. -/
inductive PState (α : Type)
  | dict : List (String × α) → PState α
  | arr : List Int → PState α
  | other : PState α
deriving DecidableEq

/-- Python `merged = base.copy(); merged.update(delta)`: base entries keep
their position but take delta's value when delta has the key; delta entries
with fresh keys are appended in delta order. -/
def dictMerge {α : Type} (b d : List (String × α)) : List (String × α) :=
  b.map (fun p =>
    match dictGet d p.1 with
    | some v => (p.1, v)
    | none => p) ++
  d.filter (fun p => (dictGet b p.1).isNone)

/-- `CheckpointManager._merge_delta` on unpickled values.  dict/dict pairs take
the right-biased overlay (PyTorch branch when torch imports, generic branch
otherwise — the merged result is identical).  ndarray/ndarray pairs take numpy
`base + delta`: element-wise on equal shapes, broadcast when one side has a
single element, and a shape-mismatch `ValueError` otherwise, which the blanket
`except` turns into the fall-through that returns `base`.  Any other pair
fails every `isinstance` test and returns `base` unchanged. -/
def mergeDelta {α : Type} : PState α → PState α → PState α
  | .dict b, .dict d => .dict (dictMerge b d)
  | .arr b, .arr d =>
    if b.length = d.length then .arr (List.zipWith (· + ·) b d)
    else if d.length = 1 then .arr (b.map (· + d.headI))
    else if b.length = 1 then .arr (d.map (b.headI + ·))
    else .arr b
  | b, _ => b

/-- A pair the merge cannot classify: neither both structured mappings nor
both numeric arrays. -/
def Unclassifiable {α : Type} (p q : PState α) : Prop :=
  (∀ b d : List (String × α), ¬(p = .dict b ∧ q = .dict d)) ∧
  (∀ xs ys : List Int, ¬(p = .arr xs ∧ q = .arr ys))

/-- `foreman/db/models.py` `TaskModel`, restricted to the columns the
scheduling and lifecycle claims touch (checkpoint columns are modelled
separately with the checkpoint subsystem). -/
structure TaskRow where
  id : String
  jobId : String
  workerId : Option String
  status : String
  args : String
  result : Option String
  errorMessage : Option String
deriving DecidableEq

/-- `foreman/db/models.py` `JobModel` columns used here. -/
structure JobRow where
  id : String
  status : String
  totalTasks : Nat
  completedTasks : Nat
deriving DecidableEq

/-- `foreman/db/models.py` `WorkerModel` columns used here. -/
structure WorkerRow where
  id : String
  status : String
  currentTaskId : Option String
  totalTasksCompleted : Nat
  totalTasksFailed : Nat
deriving DecidableEq

/-- `foreman/db/models.py` `WorkerFailureModel` (append-only history). -/
structure FailureRow where
  workerId : String
  taskId : String
  jobId : String
  errorMessage : String
deriving DecidableEq

/-- The relational store: each table a list of rows in insertion order. -/
structure DbState where
  jobs : List JobRow
  tasks : List TaskRow
  workers : List WorkerRow
  failures : List FailureRow
deriving DecidableEq

/-- `crud.update_task_status` applied to one row.  Every optional column sits
behind a Python truthiness test (`if worker_id:` etc.), so passing
`worker_id=None` leaves the stored worker_id untouched. -/
def updateTaskRow (t : TaskRow) (status : String) (workerId result error : Option String) : TaskRow :=
  let t1 := { t with status := status }
  let t2 := if pyTruthyStr workerId then { t1 with workerId := workerId } else t1
  let t3 := if pyTruthyStr result then { t2 with result := result } else t2
  if pyTruthyStr error then { t3 with errorMessage := error } else t3

/-- `crud.update_task_status`: `UPDATE tasks ... WHERE id = task_id`. -/
def updateTaskStatus (db : DbState) (taskId status : String)
    (workerId result error : Option String) : DbState :=
  { db with tasks := db.tasks.map (fun t =>
      if t.id = taskId then updateTaskRow t status workerId result error else t) }

/-- `crud.update_worker_status` (last_seen is wall clock, not modelled). -/
def updateWorkerStatus (db : DbState) (workerId status : String)
    (currentTaskId : Option String) : DbState :=
  { db with workers := db.workers.map (fun w =>
      if w.id = workerId then
        let w1 := { w with status := status }
        if pyTruthyStr currentTaskId then { w1 with currentTaskId := currentTaskId } else w1
      else w) }

/-- `crud.update_worker_task_stats`. -/
def updateWorkerTaskStats (db : DbState) (workerId : String) (taskDone : Bool) : DbState :=
  { db with workers := db.workers.map (fun w =>
      if w.id = workerId then
        if taskDone then { w with totalTasksCompleted := w.totalTasksCompleted + 1 }
        else { w with totalTasksFailed := w.totalTasksFailed + 1 }
      else w) }

/-- `crud.update_job_status` (completed_at is wall clock, not modelled). -/
def updateJobStatus (db : DbState) (jobId status : String) (completedTasks : Option Nat) : DbState :=
  { db with jobs := db.jobs.map (fun j =>
      if j.id = jobId then
        let j1 := { j with status := status }
        match completedTasks with
        | some c => { j1 with completedTasks := c }
        | none => j1
      else j) }

/-- `crud.increment_job_completed_tasks`. -/
def incrementJobCompletedTasks (db : DbState) (jobId : String) : DbState :=
  { db with jobs := db.jobs.map (fun j =>
      if j.id = jobId then { j with completedTasks := j.completedTasks + 1 } else j) }

/-- `crud.record_worker_failure`. -/
def recordWorkerFailure (db : DbState) (workerId taskId error jobId : String) : DbState :=
  { db with failures := db.failures ++
      [{ workerId := workerId, taskId := taskId, jobId := jobId, errorMessage := error }] }

/-- Primary-key lookups. -/
def findTask (db : DbState) (taskId : String) : Option TaskRow :=
  db.tasks.find? (fun t => t.id = taskId)

def findJob (db : DbState) (jobId : String) : Option JobRow :=
  db.jobs.find? (fun j => j.id = jobId)

def findWorker (db : DbState) (workerId : String) : Option WorkerRow :=
  db.workers.find? (fun w => w.id = workerId)

/-- `crud.get_job_tasks`. -/
def getJobTasks (db : DbState) (jobId : String) : List TaskRow :=
  db.tasks.filter (fun t => t.jobId = jobId)

/-- `crud.get_pending_tasks` with a job filter. -/
def getPendingTasksOfJob (db : DbState) (jobId : String) : List TaskRow :=
  db.tasks.filter (fun t => t.status = "pending" ∧ t.jobId = jobId)

/-- The in-memory foreman components the message flow touches
(`JobManager._job_cache` and `_job_metadata` — the latter's entries are
(completed_tasks, failed_tasks) —, the connection registry, the database),
plus the observable effects the claims speak about: invocations of the
completion handler and JOB_RESULTS emissions, in order. -/
structure Sys where
  db : DbState
  conn : ConnectionManager
  jobCache : List (String × String)
  jobMeta : List (String × (Nat × Nat))
  completionCalls : List String
  emittedResults : List (String × List (Option String))
deriving DecidableEq

/-- Modelled from the spec: `_complete_task_if_assigned` lives in
`foreman/core/utils/utils.py`, which is absent from the source tree (only the
importing module `foreman/core/utils/__init__.py` is present).  Spec §4.4:
compare-and-set on `(task_id, status=assigned, worker_id)`; if accepted, write
result and status=completed, increment `job.completed_tasks` atomically;
stale or duplicate completions return accepted=false and do not mutate
counters.  Returns the database plus the `(accepted, _, completed_count,
total_tasks)` tuple unpacked at the call site in `mark_task_completed`. -/
def completeTaskIfAssigned (db : DbState) (taskId workerId result : String) :
    DbState × Bool × Option Nat × Option Nat :=
  match findTask db taskId with
  | none => (db, false, none, none)
  | some t =>
    if t.status = "assigned" ∧ t.workerId = some workerId then
      let db1 := updateTaskStatus db taskId "completed" (some workerId) (some result) none
      let db2 := incrementJobCompletedTasks db1 t.jobId
      match findJob db2 t.jobId with
      | some j => (db2, true, some j.completedTasks, some j.totalTasks)
      | none => (db2, true, none, none)
    else (db, false, none, none)

/-- `JobManager.mark_task_completed`: delegate the compare-and-set, refresh the
in-memory metadata when the job is still cached, report (accepted,
job_complete). -/
def markTaskCompleted (sys : Sys) (taskId jobId workerId result : String) : Sys × Bool × Bool :=
  let r := completeTaskIfAssigned sys.db taskId workerId result
  if r.2.1 = false then ({ sys with db := r.1 }, false, false)
  else
    let sys1 := { sys with db := r.1 }
    let sys2 :=
      match dictGet sys1.jobMeta jobId with
      | some m => { sys1 with jobMeta := dictSet sys1.jobMeta jobId (pyOrNat r.2.2.1 m.1, m.2) }
      | none => sys1
    let isComplete :=
      match r.2.2.2, r.2.2.1 with
      | some t, some c => decide (t ≤ c)
      | _, _ => false
    (sys2, true, isComplete)

/-- `JobManager.mark_task_failed`: record the failure, then
`update_task_status(task_id, "pending", worker_id=None, error=error)`; the
crud layer's truthiness guard means the stored worker_id is untouched. -/
def markTaskFailed (sys : Sys) (taskId jobId workerId error : String) : Sys :=
  let db1 := recordWorkerFailure sys.db workerId taskId error jobId
  let db2 := updateTaskStatus db1 taskId "pending" none none (some error)
  let sys1 := { sys with db := db2 }
  match dictGet sys1.jobMeta jobId with
  | some m => { sys1 with jobMeta := dictSet sys1.jobMeta jobId (m.1, m.2 + 1) }
  | none => sys1

/-- `JobManager.is_job_complete`: NB `if not tasks: return False` — an empty
task list reports incomplete. -/
def isJobComplete (tasks : List TaskRow) : Bool :=
  if tasks.isEmpty then false
  else (tasks.filter (fun t => t.status = "completed")).length = tasks.length

/-- `JobManager.get_job_results`: none when the job is not complete, otherwise
the results in task-index order, matched by id `{job_id}_task_{i}`; a missing
or non-completed slot contributes null.  The JSON re-decoding of a stored
result string is out of scope here: results are returned as stored. -/
def getJobResults (jobId : String) (tasks : List TaskRow) : Option (List (Option String)) :=
  if isJobComplete tasks = false then none
  else if tasks.isEmpty then some []
  else some ((List.range tasks.length).map (fun i =>
    match tasks.find? (fun t => t.id = jobId ++ "_task_" ++ toString i) with
    | some t => if t.status = "completed" then t.result else none
    | none => none))

/-- `JobManager.finalize_job`: persist status=completed, evict both caches. -/
def finalizeJob (sys : Sys) (jobId : String) : Sys :=
  { sys with db := updateJobStatus sys.db jobId "completed" none,
             jobCache := dictDel sys.jobCache jobId,
             jobMeta := dictDel sys.jobMeta jobId }

/-- `JobCompletionHandler.handle_job_completion`; each invocation is recorded
in `completionCalls`. -/
def handleJobCompletion (sys : Sys) (jobId : String) : Sys :=
  let sys0 := { sys with completionCalls := sys.completionCalls ++ [jobId] }
  match findJob sys0.db jobId with
  | none => sys0
  | some _ =>
    match getJobResults jobId (getJobTasks sys0.db jobId) with
    | none => sys0
    | some results =>
      match getClientWebsocket sys0.conn jobId with
      | none => sys0
      | some _ =>
        finalizeJob { sys0 with emittedResults := sys0.emittedResults ++ [(jobId, results)] } jobId

/-- The ordered side effects of `TaskDispatcher._assign_task_to_worker`,
recorded to settle the temporal claim about assignment. -/
inductive AssignEvent
  | emitAttempt | emitFailed | setTaskAssigned | markedBusy | markedAvailable
deriving DecidableEq

/-- `TaskDispatcher._assign_task_to_worker`.  `sendOk ws` is the outcome of
`await websocket.send(...)`; false models the send raising, which lands in the
`except` block.  The returned trace lists the effects in program order: the
envelope is sent first, and only afterwards are the task row and the
availability set touched. -/
def assignTaskToWorker (sys : Sys) (sendOk : Nat → Bool)
    (_jobId taskId _funcCode _args workerId : String) : Sys × Bool × List AssignEvent :=
  match getWorkerWebsocket sys.conn workerId with
  | none => (sys, false, [])
  | some ws =>
    if sendOk ws then
      let sys1 := { sys with db := updateTaskStatus sys.db taskId "assigned" (some workerId) none none }
      let sys2 := { sys1 with conn := markWorkerBusy sys1.conn workerId }
      let sys3 := { sys2 with db := updateWorkerStatus sys2.db workerId "busy" (some taskId) }
      (sys3, true, [.emitAttempt, .setTaskAssigned, .markedBusy])
    else
      let sys1 := { sys with conn := markWorkerAvailable sys.conn workerId }
      let sys2 := { sys1 with db := updateWorkerStatus sys1.db workerId "online" none }
      (sys2, false, [.emitAttempt, .emitFailed, .markedAvailable])

/-- `TaskDispatcher.assign_task_to_available_worker`: pick among all pending
tasks via the pluggable `scheduler.select_task`, fetch the cached func_code
(`if not func_code:` bails on a missing or empty entry), delegate to
`_assign_task_to_worker`. -/
def assignTaskToAvailableWorker (sys : Sys) (sendOk : Nat → Bool)
    (selectTask : List TaskRow → String → Option TaskRow) (workerId : String) : Sys × Bool :=
  let pending := sys.db.tasks.filter (fun t => t.status = "pending")
  if pending.isEmpty then (sys, false)
  else
    match selectTask pending workerId with
    | none => (sys, false)
    | some t =>
      match dictGet sys.jobCache t.jobId with
      | none => (sys, false)
      | some fc =>
        if fc = "" then (sys, false)
        else
          let r := assignTaskToWorker sys sendOk t.jobId t.id fc t.args workerId
          (r.1, r.2.1)

/-- The per-task loop of `TaskDispatcher.assign_tasks_for_job`: re-read the
available set each iteration, break when it is empty, ask the scheduler for a
worker, assign on success. -/
def assignLoop (sendOk : Nat → Bool)
    (selectWorker : TaskRow → Finset String → List WorkerRow → Option String)
    (funcCode : String) : List TaskRow → Sys → Nat → Sys × Nat
  | [], sys, n => (sys, n)
  | t :: ts, sys, n =>
    if sys.conn.availableWorkers = ∅ then (sys, n)
    else
      match selectWorker t sys.conn.availableWorkers sys.db.workers with
      | none => assignLoop sendOk selectWorker funcCode ts sys n
      | some wid =>
        let r := assignTaskToWorker sys sendOk t.jobId t.id funcCode t.args wid
        assignLoop sendOk selectWorker funcCode ts r.1 (if r.2.1 then n + 1 else n)

/-- `TaskDispatcher.assign_tasks_for_job`. -/
def assignTasksForJob (sys : Sys) (sendOk : Nat → Bool)
    (selectWorker : TaskRow → Finset String → List WorkerRow → Option String)
    (jobId funcCode : String) : Sys × Nat :=
  let pending := getPendingTasksOfJob sys.db jobId
  if pending.isEmpty then (sys, 0)
  else assignLoop sendOk selectWorker funcCode pending sys 0

/-- Python truthiness of the `(accepted, job_complete)` pair returned by
`mark_task_completed`: `_handle_task_result` binds the whole pair to the
single variable `job_complete` without unpacking it, and a non-empty tuple is
truthy whatever the booleans inside. -/
def pyTruthyPair (_p : Bool × Bool) : Bool := true

/-- `WorkerMessageHandler._handle_task_result`. -/
def handleTaskResult (sys : Sys) (sendOk : Nat → Bool)
    (selectTask : List TaskRow → String → Option TaskRow)
    (ws : Nat) (jobId taskId result : String) : Sys :=
  match findWorkerByWebsocket sys.conn ws with
  | none => sys
  | some wid =>
    let r := markTaskCompleted sys taskId jobId wid result
    let jobComplete := (r.2.1, r.2.2)
    let sys2 := { r.1 with db := updateWorkerTaskStats r.1.db wid true }
    let sys3 := { sys2 with conn := markWorkerAvailable sys2.conn wid }
    let sys4 := { sys3 with db := updateWorkerStatus sys3.db wid "online" none }
    let sys5 := if pyTruthyPair jobComplete then handleJobCompletion sys4 jobId else sys4
    (assignTaskToAvailableWorker sys5 sendOk selectTask wid).1

/-- `_create_tasks_for_job`: `{job_id}_task_{i}` rows with status pending. -/
def createTasksForJob (jobId : String) (argsList : List String) : List TaskRow :=
  argsList.enum.map (fun p =>
    { id := jobId ++ "_task_" ++ toString p.1, jobId := jobId, workerId := none,
      status := "pending", args := p.2, result := none, errorMessage := none })

/-- `ClientMessageHandler._handle_job_submission`, success path: register the
client connection, cache the function source and metadata, create the job row
and its task rows, set the job running, dispatch, reply JOB_ACCEPTED. -/
def handleJobSubmission (sys : Sys) (sendOk : Nat → Bool)
    (selectWorker : TaskRow → Finset String → List WorkerRow → Option String)
    (ws : Nat) (jobId funcCode : String) (argsList : List String) (totalTasks : Nat) :
    Sys × MessageType :=
  let conn1 := addClient sys.conn jobId ws
  let newJob : JobRow :=
    { id := jobId, status := "pending", totalTasks := totalTasks, completedTasks := 0 }
  let db1 := { sys.db with jobs := sys.db.jobs ++ [newJob] }
  let db2 := { db1 with tasks := db1.tasks ++ createTasksForJob jobId argsList }
  let sys1 := { sys with conn := conn1,
                         db := updateJobStatus db2 jobId "running" none,
                         jobCache := dictSet sys.jobCache jobId funcCode,
                         jobMeta := dictSet sys.jobMeta jobId (0, 0) }
  let r := assignTasksForJob sys1 sendOk selectWorker jobId funcCode
  (r.1, MessageType.jobAccepted)

/-- `StorageHandler.DB_SIZE_LIMIT`: 1 MiB of compressed bytes. -/
def DB_SIZE_LIMIT : Nat := 1024 * 1024

/-- Blob names inside a task's checkpoint directory. -/
inductive BlobKey
  | base
  | delta (id : Nat)
deriving DecidableEq

/-- `base.gz` / `delta_<id>.gz`. -/
def blobFileName : BlobKey → String
  | .base => "base.gz"
  | .delta cid => "delta_" ++ toString cid ++ ".gz"

/-- The filesystem under the checkpoint root, keyed by (task_id, file).
Compression is modelled by its observable behaviour: a file holds the
original bytes (retrieval decompresses transparently, so write-then-read is
the identity on the payload), while the placement decision consumes
`csize data`, standing for `len(gzip.compress(data, 6))`. -/
abbrev CkptFs := List ((String × BlobKey) × List Nat)

def fsRead (fs : CkptFs) (tid : String) (k : BlobKey) : Option (List Nat) :=
  dictGet fs (tid, k)

def fsWrite (fs : CkptFs) (tid : String) (k : BlobKey) (data : List Nat) : CkptFs :=
  dictSet fs (tid, k) data

/-- `StorageHandler.delete_checkpoints`: remove the task's whole subtree. -/
def fsDeleteTask (fs : CkptFs) (tid : String) : CkptFs :=
  fs.filter (fun e => e.1.1 ≠ tid)

/-- `StorageHandler.store_checkpoint`: compress, then place.  A compressed
blob under 1 MiB only yields a `db_<id>` reference — no bytes are written
anywhere; at or above 1 MiB the blob is written under the task's subtree and
an `fs_` reference is returned. -/
def storeBlob (csize : List Nat → Nat) (fs : CkptFs) (tid : String) (data : List Nat)
    (isBase : Bool) (cid : Nat) : CkptFs × String :=
  if csize data < DB_SIZE_LIMIT then (fs, "db_" ++ toString cid)
  else
    let key := if isBase then BlobKey.base else BlobKey.delta cid
    (fsWrite fs tid key data, "fs_" ++ tid ++ "/" ++ blobFileName key)

/-- `StorageHandler.retrieve_checkpoint`: reads only the filesystem. -/
def retrieveBlob (fs : CkptFs) (tid : String) (isBase : Bool) (cid : Nat) : Option (List Nat) :=
  fsRead fs tid (if isBase then BlobKey.base else BlobKey.delta cid)

/-- The delta descriptor appended to `task.delta_checkpoints` (stored_at is
wall clock and not modelled). -/
structure DeltaInfo where
  checkpointId : Nat
  size : Nat
  compression : String
  storageRef : String
deriving DecidableEq

/-- The checkpoint columns of the Task row (progress_percent, a float in the
source, is carried as a natural number; no claim depends on its value). -/
structure CkptTask where
  progressPercent : Nat
  checkpointCount : Nat
  baseCheckpointData : Option String
  baseCheckpointSize : Nat
  deltaCheckpoints : List DeltaInfo
deriving DecidableEq

/-- The checkpoint manager's world: the task rows it reads through the
session, and the blob filesystem. -/
structure CkptState where
  tasks : List (String × CkptTask)
  fs : CkptFs
deriving DecidableEq

/-- `CheckpointManager.reconstruct_state`.  `mergeFn` is `_merge_delta` at the
byte level (unpickle, `mergeDelta`, repickle); its content is irrelevant to
the claims settled over this function.  Python truthiness: a missing or empty
base marker or base blob reports failure; an unreadable or empty delta blob
is skipped. -/
def reconstructState (mergeFn : List Nat → List Nat → List Nat)
    (st : CkptState) (tid : String) : Option (List Nat) :=
  match dictGet st.tasks tid with
  | none => none
  | some task =>
    if pyTruthyStr task.baseCheckpointData = false then none
    else
      match retrieveBlob st.fs tid true 0 with
      | none => none
      | some baseData =>
        if baseData.isEmpty then none
        else if task.deltaCheckpoints.isEmpty then some baseData
        else some (task.deltaCheckpoints.foldl (fun acc di =>
          match retrieveBlob st.fs tid false di.checkpointId with
          | some d => if d.isEmpty then acc else mergeFn acc d
          | none => acc) baseData)

/-- `CheckpointManager._compact_checkpoints`: reconstruct, delete all blobs,
store the reconstruction as a new base with id `checkpoint_count + 1`, clear
the delta list.  A failed (or falsy, i.e. empty) reconstruction returns with
nothing changed. -/
def compactCheckpoints (csize : List Nat → Nat) (mergeFn : List Nat → List Nat → List Nat)
    (st : CkptState) (tid : String) : CkptState :=
  match dictGet st.tasks tid with
  | none => st
  | some task =>
    match reconstructState mergeFn st tid with
    | none => st
    | some full =>
      if full.isEmpty then st
      else
        let fs1 := fsDeleteTask st.fs tid
        let newCid := task.checkpointCount + 1
        let r := storeBlob csize fs1 tid full true newCid
        let task1 := { task with baseCheckpointData := some ("stored_" ++ toString newCid),
                                 baseCheckpointSize := full.length,
                                 deltaCheckpoints := [],
                                 checkpointCount := newCid }
        { tasks := dictSet st.tasks tid task1, fs := r.1 }

/-- The delta branch of `CheckpointManager.store_checkpoint` up to (and
excluding) the compaction trigger: update progress and count, store the blob,
append the descriptor. -/
def storeDeltaNoCompact (csize : List Nat → Nat) (st : CkptState) (tid : String)
    (task : CkptTask) (data : List Nat) (progress cid : Nat) (compression : String) : CkptState :=
  let task1 := { task with progressPercent := progress, checkpointCount := cid }
  let r := storeBlob csize st.fs tid data false cid
  let di : DeltaInfo := { checkpointId := cid, size := data.length,
                          compression := compression, storageRef := r.2 }
  let task2 := { task1 with deltaCheckpoints := task1.deltaCheckpoints ++ [di] }
  { tasks := dictSet st.tasks tid task2, fs := r.1 }

/-- `CheckpointManager.store_checkpoint`.  The base branch replaces the base
marker and clears the delta list (the blob store is called without a
checkpoint_id, i.e. with its default 0); the delta branch appends a
descriptor and triggers compaction when the delta count reaches 50. -/
def storeCheckpoint (csize : List Nat → Nat) (mergeFn : List Nat → List Nat → List Nat)
    (st : CkptState) (tid : String) (isBase : Bool) (data : List Nat)
    (progress cid : Nat) (compression : String) : CkptState × Bool :=
  match dictGet st.tasks tid with
  | none => (st, false)
  | some task =>
    if isBase then
      let task1 := { task with progressPercent := progress, checkpointCount := cid,
                               baseCheckpointData := some ("stored_" ++ toString cid),
                               baseCheckpointSize := data.length,
                               deltaCheckpoints := [] }
      let r := storeBlob csize st.fs tid data true 0
      ({ tasks := dictSet st.tasks tid task1, fs := r.1 }, true)
    else
      let st1 := storeDeltaNoCompact csize st tid task data progress cid compression
      if 50 ≤ task.deltaCheckpoints.length + 1 then
        (compactCheckpoints csize mergeFn st1 tid, true)
      else (st1, true)

/-- Byte-level merge operator used where its value is irrelevant. -/
def mergeKeepLeft : List Nat → List Nat → List Nat := fun a _ => a

/-- Compressed-size function for the small-blob scenarios: `gzip.compress`
of a few bytes is a few dozen bytes, far below 1 MiB. -/
def csizeSmall : List Nat → Nat := fun _ => 23

/-- A one-task checkpoint store with no checkpoint data yet. -/
def ckptT0 : CkptTask :=
  { progressPercent := 0, checkpointCount := 0, baseCheckpointData := none,
    baseCheckpointSize := 0, deltaCheckpoints := [] }

def c2State : CkptState := { tasks := [("t1", ckptT0)], fs := [] }

/-- Storing a small base checkpoint for task t1. -/
def c2After : CkptState × Bool :=
  storeCheckpoint csizeSmall mergeKeepLeft c2State "t1" true [1, 2, 3] 10 1 "gzip"

/-- One small base then fifty small deltas for task t1 (scenario S5 with
blobs whose compressed size is below the hybrid threshold). -/
def c5Run : CkptState :=
  (List.range 50).foldl
    (fun st i => (storeCheckpoint csizeSmall mergeKeepLeft st "t1" false [7] 0 (i + 2) "gzip").1)
    (storeCheckpoint csizeSmall mergeKeepLeft c2State "t1" true [1, 2, 3] 0 1 "gzip").1

/-- Task row for the compaction-success witness: 49 unreadable small deltas
atop a base blob that is present in the filesystem. -/
def c5wTask : CkptTask :=
  { progressPercent := 0, checkpointCount := 51, baseCheckpointData := some "stored_1",
    baseCheckpointSize := 2,
    deltaCheckpoints := List.replicate 49
      { checkpointId := 3, size := 1, compression := "gzip", storageRef := "db_3" } }

def c5wState : CkptState :=
  { tasks := [("t", c5wTask)], fs := [(("t", BlobKey.base), [5, 6])] }

/-- Scenario S3's system state: job J with its single task completed and the
job finalized; worker W1 (websocket 7) and the client for J still connected. -/
def c1Sys : Sys :=
  { db := { jobs := [{ id := "J", status := "completed", totalTasks := 1, completedTasks := 1 }],
            tasks := [{ id := "J_task_0", jobId := "J", workerId := some "W1",
                        status := "completed", args := "[7]", result := some "11",
                        errorMessage := none }],
            workers := [{ id := "W1", status := "online", currentTaskId := none,
                          totalTasksCompleted := 5, totalTasksFailed := 0 }],
            failures := [] },
    conn := { workers := [("W1", 7)], clients := [("J", 9)], jobWebsockets := [("J", 9)],
              availableWorkers := ∅ },
    jobCache := [], jobMeta := [], completionCalls := [], emittedResults := [] }

/-- W1 resends the TASK_RESULT for the already-completed J_task_0. -/
def c1After : Sys :=
  handleTaskResult c1Sys (fun _ => true) (fun _ _ => none) 7 "J" "J_task_0" "11"

/-- A one-job, one-assigned-task state for mark_task_failed. -/
def c4Sys : Sys :=
  { db := { jobs := [{ id := "J2", status := "running", totalTasks := 1, completedTasks := 0 }],
            tasks := [{ id := "J2_task_0", jobId := "J2", workerId := some "W1",
                        status := "assigned", args := "[7]", result := none,
                        errorMessage := none }],
            workers := [{ id := "W1", status := "busy", currentTaskId := some "J2_task_0",
                          totalTasksCompleted := 0, totalTasksFailed := 0 }],
            failures := [] },
    conn := { workers := [("W1", 7)], clients := [], jobWebsockets := [], availableWorkers := ∅ },
    jobCache := [("J2", "def f(x): return x*x")], jobMeta := [("J2", (0, 0))],
    completionCalls := [], emittedResults := [] }

def c4After : Sys := markTaskFailed c4Sys "J2_task_0" "J2" "W1" "boom"

/-- A pending task and an available worker, for the assignment claim. -/
def c3Sys : Sys :=
  { db := { jobs := [{ id := "J3", status := "running", totalTasks := 1, completedTasks := 0 }],
            tasks := [{ id := "J3_task_0", jobId := "J3", workerId := none,
                        status := "pending", args := "[2]", result := none,
                        errorMessage := none }],
            workers := [{ id := "W1", status := "online", currentTaskId := none,
                          totalTasksCompleted := 0, totalTasksFailed := 0 }],
            failures := [] },
    conn := { workers := [("W1", 7)], clients := [], jobWebsockets := [],
              availableWorkers := {"W1"} },
    jobCache := [("J3", "def f(x): return x*x")], jobMeta := [("J3", (0, 0))],
    completionCalls := [], emittedResults := [] }

/-- The empty foreman state, for the zero-task submission. -/
def c7Empty : Sys :=
  { db := { jobs := [], tasks := [], workers := [], failures := [] },
    conn := { workers := [], clients := [], jobWebsockets := [], availableWorkers := ∅ },
    jobCache := [], jobMeta := [], completionCalls := [], emittedResults := [] }

def c7After : Sys × MessageType :=
  handleJobSubmission c7Empty (fun _ => true) (fun _ _ _ => none) 3 "J0" "def f(x): return x" [] 0

theorem dictGet_dictSet {κ α : Type} [DecidableEq κ] (d : List (κ × α)) (k k' : κ) (v : α) :
    dictGet (dictSet d k v) k' = if k = k' then some v else dictGet d k' := by
  induction d with
  | nil => simp only [dictSet, dictGet]
  | cons p ps ih =>
    simp only [dictSet]
    by_cases hp : p.1 = k
    · rw [if_pos hp]
      simp only [dictGet]
      by_cases h : k = k'
      · simp [h]
      · simp [h, dictGet, show ¬ p.1 = k' from fun hc => h (hp.symm.trans hc)]
    · rw [if_neg hp]
      simp only [dictGet]
      by_cases hq : p.1 = k'
      · simp [hq, show ¬ k = k' from fun hc => hp (hq.trans hc.symm)]
      · simp [hq, ih]

theorem dictGet_dictDel {κ α : Type} [DecidableEq κ] (d : List (κ × α)) (k k' : κ) :
    dictGet (dictDel d k) k' = if k = k' then none else dictGet d k' := by
  induction d with
  | nil => simp [dictDel, dictGet]
  | cons p ps ih =>
    simp only [dictDel]
    by_cases hp : p.1 = k
    · rw [if_pos hp, ih]
      by_cases h : k = k'
      · simp [h]
      · simp [h, dictGet, show ¬ p.1 = k' from fun hc => h (hp.symm.trans hc)]
    · rw [if_neg hp]
      simp only [dictGet]
      by_cases hq : p.1 = k'
      · simp [hq, show ¬ k = k' from fun hc => hp (hq.trans hc.symm)]
      · simp [hq, ih]

theorem dictGet_isSome_mem_keys {κ α : Type} [DecidableEq κ] (d : List (κ × α)) (k : κ)
    (h : (dictGet d k).isSome) : k ∈ d.map Prod.fst := by
  induction d with
  | nil => simp [dictGet] at h
  | cons p ps ih =>
    by_cases hp : p.1 = k
    · simp [hp]
    · simp [dictGet, hp] at h
      simp [ih h]

/-- C10: every ConnectionManager worker operation (add, remove, mark available,
mark busy, clear) preserves the invariant that the available set is a subset of
the registered worker map's keys, and under that invariant the reported busy
count `len(workers) - len(available_workers)` is nonnegative. -/
theorem C10_registry_invariant (cm : ConnectionManager) (h : ConnWF cm)
    (wid₁ wid₂ wid₃ wid₄ : String) (ws : Nat) :
    ConnWF (addWorker cm wid₁ ws) ∧ ConnWF (removeWorker cm wid₂).1 ∧
    ConnWF (markWorkerAvailable cm wid₃) ∧ ConnWF (markWorkerBusy cm wid₄) ∧
    ConnWF (clearAll cm) ∧ 0 ≤ getBusyWorkerCount cm := by
  refine ⟨?_, ?_, ?_, ?_, ?_, ?_⟩
  · intro w hw
    simp only [addWorker, Finset.mem_insert] at hw ⊢
    rw [dictGet_dictSet]
    by_cases hk : wid₁ = w
    · simp [hk]
    · rcases hw with rfl | hw
      · exact absurd rfl hk
      · simp only [hk, if_neg, if_false]
        exact h w hw
  · intro w hw
    simp only [removeWorker] at hw ⊢
    by_cases hm : (dictGet cm.workers wid₂).isSome = true
    · rw [if_pos hm] at hw ⊢
      simp only [Finset.mem_erase] at hw
      rw [dictGet_dictDel, if_neg (fun hc => hw.1 hc.symm)]
      exact h w hw.2
    · rw [if_neg hm] at hw ⊢
      exact h w hw
  · intro w hw
    simp only [markWorkerAvailable] at hw ⊢
    by_cases hm : (dictGet cm.workers wid₃).isSome = true
    · rw [if_pos hm] at hw ⊢
      simp only [Finset.mem_insert] at hw
      rcases hw with rfl | hw
      · exact hm
      · exact h w hw
    · rw [if_neg hm] at hw ⊢
      exact h w hw
  · intro w hw
    simp only [markWorkerBusy, Finset.mem_erase] at hw
    exact h w hw.2
  · intro w hw
    simp [clearAll] at hw
  · have hsub : cm.availableWorkers ⊆ (cm.workers.map Prod.fst).toFinset := by
      intro w hw
      rw [List.mem_toFinset]
      exact dictGet_isSome_mem_keys cm.workers w (h w hw)
    have h1 : cm.availableWorkers.card ≤ (cm.workers.map Prod.fst).toFinset.card :=
      Finset.card_le_card hsub
    have h2 : (cm.workers.map Prod.fst).toFinset.card ≤ (cm.workers.map Prod.fst).length :=
      (cm.workers.map Prod.fst).toFinset_card_le
    have h3 : cm.availableWorkers.card ≤ cm.workers.length := by
      simpa using le_trans h1 h2
    simp only [getBusyWorkerCount, sub_nonneg]
    exact_mod_cast h3

/-- Witness for C10 at a concrete one-worker registry. -/
theorem C10_registry_invariant_witness :
    ConnWF (addWorker ⟨[("w1", 5)], [], [], {"w1"}⟩ "w2" 6) ∧
    ConnWF (removeWorker ⟨[("w1", 5)], [], [], {"w1"}⟩ "w1").1 ∧
    ConnWF (markWorkerAvailable ⟨[("w1", 5)], [], [], {"w1"}⟩ "w1") ∧
    ConnWF (markWorkerBusy ⟨[("w1", 5)], [], [], {"w1"}⟩ "w1") ∧
    ConnWF (clearAll ⟨[("w1", 5)], [], [], {"w1"}⟩) ∧
    0 ≤ getBusyWorkerCount ⟨[("w1", 5)], [], [], {"w1"}⟩ :=
  C10_registry_invariant ⟨[("w1", 5)], [], [], {"w1"}⟩
    (by intro w hw; simp only [Finset.mem_singleton] at hw; simp [hw, dictGet])
    "w2" "w1" "w1" "w1" 6

theorem dictGet_append {κ α : Type} [DecidableEq κ] (xs ys : List (κ × α)) (k : κ) :
    dictGet (xs ++ ys) k = (dictGet xs k).orElse (fun _ => dictGet ys k) := by
  induction xs with
  | nil => simp [dictGet, Option.orElse]
  | cons p ps ih =>
    by_cases hp : p.1 = k
    · simp [dictGet, hp, Option.orElse]
    · simp [dictGet, hp, ih]

theorem dictGet_mergeMap {α : Type} (b d : List (String × α)) (k : String) :
    dictGet (b.map (fun p =>
        match dictGet d p.1 with
        | some v => (p.1, v)
        | none => p)) k =
      (dictGet b k).map (fun w => (dictGet d k).getD w) := by
  induction b with
  | nil => simp [dictGet]
  | cons p ps ih =>
    by_cases hp : p.1 = k
    · subst hp
      cases hd : dictGet d p.1 <;> simp [dictGet, hd]
    · cases hd : dictGet d p.1 <;> simp [dictGet, hd, hp, ih]

theorem dictGet_mergeFilter {α : Type} (b d : List (String × α)) (k : String) :
    dictGet (d.filter (fun p => (dictGet b p.1).isNone)) k =
      if (dictGet b k).isSome then none else dictGet d k := by
  induction d with
  | nil => simp [dictGet]
  | cons q qs ih =>
    by_cases hq : q.1 = k
    · subst hq
      cases hb : dictGet b q.1 <;> simp [List.filter, dictGet, hb, ih]
    · cases hb : dictGet b q.1 <;>
        cases hbq : dictGet b q.1 <;>
          simp [List.filter, dictGet, hb, hbq, hq, ih]

/-- C6: the checkpoint merge is the right-biased key overlay on structured
mappings (every key of delta takes delta's value, keys only in base keep
base's value), is element-wise addition on equal-length numeric arrays, and
returns base unchanged whenever the pair cannot be classified. -/
theorem C6_merge_delta_semantics (α : Type) :
    (∀ b d : List (String × α),
      mergeDelta (PState.dict b) (PState.dict d) = PState.dict (dictMerge b d)) ∧
    (∀ (b d : List (String × α)) (k : String),
      dictGet (dictMerge b d) k = (dictGet d k).orElse (fun _ => dictGet b k)) ∧
    (∀ xs ys : List Int, xs.length = ys.length →
      mergeDelta (PState.arr xs) (PState.arr ys) =
        (PState.arr (List.zipWith (· + ·) xs ys) : PState α)) ∧
    (∀ p q : PState α, Unclassifiable p q → mergeDelta p q = p) := by
  refine ⟨fun b d => rfl, ?_, ?_, ?_⟩
  · intro b d k
    rw [dictMerge, dictGet_append, dictGet_mergeMap, dictGet_mergeFilter]
    cases hb : dictGet b k <;> cases hd : dictGet d k <;> simp [Option.orElse]
  · intro xs ys h
    simp [mergeDelta, h]
  · intro p q hu
    cases p with
    | dict b =>
      cases q with
      | dict d => exact absurd ⟨rfl, rfl⟩ (hu.1 b d)
      | arr ys => rfl
      | other => rfl
    | arr xs =>
      cases q with
      | dict d => rfl
      | arr ys => exact absurd ⟨rfl, rfl⟩ (hu.2 xs ys)
      | other => rfl
    | other =>
      cases q with
      | dict d => rfl
      | arr ys => rfl
      | other => rfl

/-- Witness for C6 at concrete payloads (scenario S4's shape). -/
theorem C6_merge_delta_semantics_witness :
    mergeDelta (PState.dict [("step", (1 : Int))]) (PState.dict [("step", 2)]) =
      PState.dict (dictMerge [("step", (1 : Int))] [("step", 2)]) ∧
    dictGet (dictMerge [("a", (1 : Int)), ("b", 2)] [("b", 9), ("c", 3)]) "b" =
      (dictGet [("b", (9 : Int)), ("c", 3)] "b").orElse
        (fun _ => dictGet [("a", (1 : Int)), ("b", 2)] "b") ∧
    mergeDelta (PState.arr [1, 2]) (PState.arr [10, 20]) = (PState.arr [11, 22] : PState Int) ∧
    mergeDelta PState.other (PState.dict [("x", (5 : Int))]) = PState.other := by
  have h := C6_merge_delta_semantics Int
  refine ⟨h.1 _ _, h.2.1 _ _ "b", ?_, ?_⟩
  · have h3 := h.2.2.1 [1, 2] [10, 20] rfl
    simpa using h3
  · exact h.2.2.2 PState.other (PState.dict [("x", (5 : Int))])
      ⟨fun b d hc => by simp at hc, fun xs ys hc => by simp at hc⟩

/-- C8 counterexample: a worker connection receives WORKER_READY, then an
envelope whose tag is outside the tag set, then PONG.  The unknown tag raises
in `Message.from_dict`; the loop's `except` prints and breaks, so the PONG
frame is left unprocessed — the connection does not continue. -/
theorem C8_counterexample :
    (runConnection none ["worker_ready", "mystery_tag", "pong"]).2 = ["pong"] ∧
    (Role.worker, MessageType.pong) ∉ (runConnection none ["worker_ready", "mystery_tag", "pong"]).1 := by
  decide

/-- C8 (amended): on a connection with a determined role, an envelope whose
tag is in the tag set but is not dispatched by that role's handler is logged
and ignored and subsequent envelopes are processed; an envelope whose tag is
outside the tag set fails to parse and the per-connection loop breaks,
leaving all subsequent envelopes unprocessed. -/
theorem C8_unknown_envelope_behavior (r : Role) (tag : String) (rest : List String) :
    (∀ t, MessageType.ofTag tag = some t → roleHandles r t = false →
      runConnection (some r) (tag :: rest) =
        ((r, t) :: (runConnection (some r) rest).1, (runConnection (some r) rest).2)) ∧
    (MessageType.ofTag tag = none → runConnection (some r) (tag :: rest) = ([], rest)) := by
  constructor
  · intro t ht hrh
    have hclose : handlerClosesConnection r t = false := by
      cases r <;> cases t <;> simp_all [roleHandles, handlerClosesConnection]
    simp [runConnection, ht, hclose]
  · intro ht
    simp [runConnection, ht]

/-- Witness for C8 (amended): a worker connection ignores a JOB_ACCEPTED tag
and keeps going, while an out-of-enum tag stops the loop. -/
theorem C8_unknown_envelope_behavior_witness :
    runConnection (some Role.worker) ["job_accepted", "pong"] =
      ((Role.worker, MessageType.jobAccepted) :: (runConnection (some Role.worker) ["pong"]).1,
        (runConnection (some Role.worker) ["pong"]).2) ∧
    runConnection (some Role.worker) ["nonsense"] = ([], []) :=
  ⟨(C8_unknown_envelope_behavior Role.worker "job_accepted" ["pong"]).1
      MessageType.jobAccepted (by decide) (by decide),
    (C8_unknown_envelope_behavior Role.worker "nonsense" []).2 (by decide)⟩

/-- C1: a duplicate TASK_RESULT for the already-completed J_task_0 is rejected
by the compare-and-set (accepted=false) and the job's completed_tasks counter
stays at 1 — but the handler still invokes the completion handler and re-emits
JOB_RESULTS, because it binds the (accepted, job_complete) pair to one
variable and a non-empty tuple is always truthy. -/
theorem C1_duplicate_result_still_triggers_completion :
    (completeTaskIfAssigned c1Sys.db "J_task_0" "W1" "11").2.1 = false ∧
    (markTaskCompleted c1Sys "J_task_0" "J" "W1" "11").2.1 = false ∧
    (findJob c1After.db "J").map (fun j => j.completedTasks) = some 1 ∧
    c1After.completionCalls = ["J"] ∧
    c1After.emittedResults = [("J", [some "11"])] := by
  decide

/-- C2: a base checkpoint whose compressed size is below the 1 MiB threshold is
reported stored (true, marker `stored_1` recorded), yet reconstruct_state
returns none instead of the stored bytes: the storage handler only returned a
`db_1` reference without persisting the blob, and retrieval reads only the
filesystem. -/
theorem C2_small_base_round_trip_fails :
    c2After.2 = true ∧
    (dictGet c2After.1.tasks "t1").map (fun t => t.baseCheckpointData) =
      some (some "stored_1") ∧
    reconstructState mergeKeepLeft c2After.1 "t1" = none := by
  decide

/-- C4: mark_task_failed on an assigned task resets status to pending and
records the error, but the stale worker_id survives: crud.update_task_status
guards every optional column with Python truthiness, so `worker_id=None` is
silently dropped. -/
theorem C4_failed_task_keeps_worker_id :
    (findTask c4After.db "J2_task_0").map (fun t => (t.status, t.workerId, t.errorMessage)) =
      some ("pending", some "W1", some "boom") ∧
    c4After.db.failures.length = 1 := by
  decide

set_option maxRecDepth 100000 in
/-- C5 counterexample: after one small base and fifty small deltas the
compaction trigger fires, but _compact_checkpoints cannot reconstruct the
state (the base blob was never persisted), so it returns with nothing
changed: the delta list still holds 50 descriptors and no new base marker was
written — against the claim's empty delta list and base id = previous
checkpoint_count + 1. -/
theorem C5_counterexample :
    (dictGet c5Run.tasks "t1").map
        (fun t => (t.deltaCheckpoints.length, t.baseCheckpointData, t.checkpointCount)) =
      some (50, some "stored_1", 51) := by
  decide

/-- C7 counterexample: submitting a job with an empty args_list is replied
with JOB_ACCEPTED, but the job is not immediately complete and its results
are not []: with zero task rows is_job_complete reports false and
get_job_results returns none. -/
theorem C7_counterexample :
    c7After.2 = MessageType.jobAccepted ∧
    getJobTasks c7After.1.db "J0" = [] ∧
    isJobComplete (getJobTasks c7After.1.db "J0") = false ∧
    getJobResults "J0" (getJobTasks c7After.1.db "J0") = none := by
  decide

/-- C3 counterexample: in a successful concrete assignment the recorded effect
order is emit first, then the task-status write, then the removal from the
available set — the claim's requirement that both effects precede the emit
fails at this input. -/
theorem C3_counterexample :
    (assignTaskToWorker c3Sys (fun _ => true) "J3" "J3_task_0" "f" "[2]" "W1").2.1 = true ∧
    (assignTaskToWorker c3Sys (fun _ => true) "J3" "J3_task_0" "f" "[2]" "W1").2.2 =
      [AssignEvent.emitAttempt, AssignEvent.setTaskAssigned, AssignEvent.markedBusy] ∧
    ¬ ((assignTaskToWorker c3Sys (fun _ => true) "J3" "J3_task_0" "f" "[2]" "W1").2.2.indexOf
          AssignEvent.setTaskAssigned <
        (assignTaskToWorker c3Sys (fun _ => true) "J3" "J3_task_0" "f" "[2]" "W1").2.2.indexOf
          AssignEvent.emitAttempt ∧
       (assignTaskToWorker c3Sys (fun _ => true) "J3" "J3_task_0" "f" "[2]" "W1").2.2.indexOf
          AssignEvent.markedBusy <
        (assignTaskToWorker c3Sys (fun _ => true) "J3" "J3_task_0" "f" "[2]" "W1").2.2.indexOf
          AssignEvent.emitAttempt) := by
  decide

theorem updateTaskRow_id (t : TaskRow) (status : String) (workerId result error : Option String) :
    (updateTaskRow t status workerId result error).id = t.id := by
  unfold updateTaskRow
  dsimp only
  split <;> split <;> split <;> rfl

theorem updateWorkerStatus_tasks (db : DbState) (wid status : String) (ct : Option String) :
    (updateWorkerStatus db wid status ct).tasks = db.tasks := rfl

theorem find?_map_update {β : Type} (p : β → Prop) [DecidablePred p] (upd : β → β)
    (hp : ∀ b, p (upd b) ↔ p b) (l : List β) :
    (l.map (fun b => if p b then upd b else b)).find? (fun b => p b) =
      (l.find? (fun b => p b)).map upd := by
  induction l with
  | nil => rfl
  | cons b bs ih =>
    by_cases h : p b
    · simp [List.find?, h, (hp b).mpr h]
    · simp [List.find?, h, ih, fun hc => h ((hp b).mp hc)]

theorem dictGet_isSome_of_mem {κ α : Type} [DecidableEq κ] (d : List (κ × α)) (q : κ × α)
    (hq : q ∈ d) : (dictGet d q.1).isSome := by
  induction d with
  | nil => simp at hq
  | cons p ps ih =>
    by_cases h : p.1 = q.1
    · simp [dictGet, h]
    · rcases List.mem_cons.mp hq with rfl | hm
      · exact absurd rfl h
      · simp only [dictGet, h, if_neg, if_false]
        exact ih hm

theorem findWorkerByWebsocket_isSome (cm : ConnectionManager) (ws : Nat) (wid : String)
    (h : findWorkerByWebsocket cm ws = some wid) : (dictGet cm.workers wid).isSome := by
  unfold findWorkerByWebsocket at h
  cases hf : cm.workers.find? (fun p => p.2 = ws) with
  | none => rw [hf] at h; simp at h
  | some pr =>
    rw [hf] at h
    simp only [Option.map_some'] at h
    have hm : pr ∈ cm.workers := List.mem_of_find?_eq_some hf
    have h' : pr.1 = wid := Option.some.inj h
    rw [← h']
    exact dictGet_isSome_of_mem cm.workers pr hm

theorem mem_markWorkerAvailable (cm : ConnectionManager) (wid : String)
    (h : (dictGet cm.workers wid).isSome) :
    wid ∈ (markWorkerAvailable cm wid).availableWorkers := by
  unfold markWorkerAvailable
  rw [if_pos h]
  exact Finset.mem_insert_self wid _

/-- C3 (amended): `_assign_task_to_worker` emits the ASSIGN_TASK envelope
first; only after a successful emit does it set the task row to
status=assigned with the worker id (a plain update, not a compare-and-set)
and remove the worker from the available set.  When the emit fails there is
nothing to roll back: the task rows are untouched (a pending task remains
pending) and the worker is (re)marked available. -/
theorem C3_emit_precedes_state_effects (sys : Sys) (sendOk : Nat → Bool)
    (jobId taskId funcCode args wid : String) (ws : Nat)
    (hws : getWorkerWebsocket sys.conn wid = some ws) (hwid : wid ≠ "") :
    (sendOk ws = true →
      (assignTaskToWorker sys sendOk jobId taskId funcCode args wid).2.2 =
        [AssignEvent.emitAttempt, AssignEvent.setTaskAssigned, AssignEvent.markedBusy] ∧
      (assignTaskToWorker sys sendOk jobId taskId funcCode args wid).2.1 = true ∧
      (findTask (assignTaskToWorker sys sendOk jobId taskId funcCode args wid).1.db taskId).map
          (fun t => (t.status, t.workerId)) =
        (findTask sys.db taskId).map (fun _ => ("assigned", some wid)) ∧
      wid ∉ (assignTaskToWorker sys sendOk jobId taskId funcCode args wid).1.conn.availableWorkers) ∧
    (sendOk ws = false →
      (assignTaskToWorker sys sendOk jobId taskId funcCode args wid).2.1 = false ∧
      (assignTaskToWorker sys sendOk jobId taskId funcCode args wid).1.db.tasks = sys.db.tasks ∧
      wid ∈ (assignTaskToWorker sys sendOk jobId taskId funcCode args wid).1.conn.availableWorkers ∧
      (assignTaskToWorker sys sendOk jobId taskId funcCode args wid).2.2 =
        [AssignEvent.emitAttempt, AssignEvent.emitFailed, AssignEvent.markedAvailable]) := by
  unfold assignTaskToWorker
  rw [hws]
  dsimp only
  constructor
  · intro hsend
    rw [if_pos hsend]
    refine ⟨rfl, rfl, ?_, ?_⟩
    · unfold findTask updateTaskStatus
      rw [updateWorkerStatus_tasks]
      dsimp only
      rw [find?_map_update (fun t => t.id = taskId)
            (fun t => updateTaskRow t "assigned" (some wid) none none)
            (fun t => by simp [updateTaskRow_id]) sys.db.tasks]
      cases hf : sys.db.tasks.find? (fun t => decide (t.id = taskId)) with
      | none => simp
      | some t => simp [updateTaskRow, pyTruthyStr, hwid]
    · exact Finset.not_mem_erase wid _
  · intro hsend
    rw [if_neg (by rw [hsend]; exact Bool.false_ne_true)]
    refine ⟨rfl, rfl, ?_, rfl⟩
    exact mem_markWorkerAvailable sys.conn wid (by rw [getWorkerWebsocket] at hws; simp [hws])

/-- Witness for C3 (amended) at the concrete pending-task state, once with a
succeeding emit and once with a failing one. -/
theorem C3_emit_precedes_state_effects_witness :
    (assignTaskToWorker c3Sys (fun _ => true) "J3" "J3_task_0" "f" "[2]" "W1").2.2 =
      [AssignEvent.emitAttempt, AssignEvent.setTaskAssigned, AssignEvent.markedBusy] ∧
    "W1" ∈ (assignTaskToWorker c3Sys (fun _ => false) "J3" "J3_task_0" "f" "[2]" "W1").1.conn.availableWorkers := by
  constructor
  · exact ((C3_emit_precedes_state_effects c3Sys (fun _ => true) "J3" "J3_task_0" "f" "[2]" "W1" 7
      (by decide) (by decide)).1 rfl).1
  · exact (((C3_emit_precedes_state_effects c3Sys (fun _ => false) "J3" "J3_task_0" "f" "[2]" "W1" 7
      (by decide) (by decide)).2 rfl).2).2.1

/-- C5 (amended): when a stored delta brings the delta count to exactly 50,
`store_checkpoint` invokes `_compact_checkpoints` exactly once on the
delta-appended state; whenever the full state can be reconstructed (and is
non-empty), compaction leaves an empty delta list, a new base marker whose id
equals the previous checkpoint_count + 1, and a strictly increased
checkpoint_count.  When reconstruction fails — in particular for every blob
chain kept reference-only because its compressed size is under 1 MiB —
compaction returns with the 50 delta descriptors still in place
(see the counterexample). -/
theorem C5_compaction_trigger_and_success (csize : List Nat → Nat)
    (mergeFn : List Nat → List Nat → List Nat) (st : CkptState) (tid : String)
    (task : CkptTask) (data : List Nat) (progress cid : Nat) (compression : String)
    (full : List Nat) (h : dictGet st.tasks tid = some task) :
    (task.deltaCheckpoints.length = 49 →
      storeCheckpoint csize mergeFn st tid false data progress cid compression =
        (compactCheckpoints csize mergeFn
            (storeDeltaNoCompact csize st tid task data progress cid compression) tid, true)) ∧
    (reconstructState mergeFn st tid = some full → full ≠ [] →
      dictGet (compactCheckpoints csize mergeFn st tid).tasks tid =
        some { task with
                baseCheckpointData := some ("stored_" ++ toString (task.checkpointCount + 1)),
                baseCheckpointSize := full.length,
                deltaCheckpoints := [],
                checkpointCount := task.checkpointCount + 1 } ∧
      task.checkpointCount < task.checkpointCount + 1) := by
  constructor
  · intro hlen
    unfold storeCheckpoint
    rw [h]
    dsimp only
    rw [hlen]
    simp
  · intro hrec hne
    refine ⟨?_, Nat.lt_succ_self _⟩
    unfold compactCheckpoints
    rw [h, hrec]
    dsimp only
    cases full with
    | nil => exact absurd rfl hne
    | cons a l =>
      simp [List.isEmpty, dictGet_dictSet]

/-- Witness for C5 (amended): task t carries 49 delta descriptors and a base
blob present in the filesystem; the 50th delta triggers exactly one
compaction, and compaction on the reconstructible state clears the deltas and
writes the `stored_52` base marker (previous checkpoint_count 51 plus one). -/
theorem C5_compaction_trigger_and_success_witness :
    storeCheckpoint csizeSmall mergeKeepLeft c5wState "t" false [9] 0 52 "gzip" =
      (compactCheckpoints csizeSmall mergeKeepLeft
          (storeDeltaNoCompact csizeSmall c5wState "t" c5wTask [9] 0 52 "gzip") "t", true) ∧
    dictGet (compactCheckpoints csizeSmall mergeKeepLeft c5wState "t").tasks "t" =
      some { c5wTask with
              baseCheckpointData := some ("stored_" ++ toString (c5wTask.checkpointCount + 1)),
              baseCheckpointSize := ([5, 6] : List Nat).length,
              deltaCheckpoints := [],
              checkpointCount := c5wTask.checkpointCount + 1 } := by
  have h := C5_compaction_trigger_and_success csizeSmall mergeKeepLeft c5wState "t" c5wTask
    [9] 0 52 "gzip" [5, 6] (by decide)
  exact ⟨h.1 (by decide), (h.2 (by decide) (by decide)).1⟩

theorem updateJobStatus_tasks (db : DbState) (jobId status : String) (c : Option Nat) :
    (updateJobStatus db jobId status c).tasks = db.tasks := rfl

theorem pending_filter_nil (l : List TaskRow) (jobId : String)
    (h : l.filter (fun t => t.jobId = jobId) = []) :
    l.filter (fun t => t.status = "pending" ∧ t.jobId = jobId) = [] := by
  rw [List.filter_eq_nil_iff] at h ⊢
  intro a ha
  simp only [decide_eq_true_eq, not_and] at *
  intro _
  exact h a ha

/-- C7 (amended): submitting a job with total_tasks=0 (empty args_list) is
accepted — the handler replies JOB_ACCEPTED — but the job is not immediately
complete and its results are not []: no task rows exist, `is_job_complete`
returns false on the empty task list, and `get_job_results` returns null. -/
theorem C7_zero_task_job_not_complete (sys : Sys) (sendOk : Nat → Bool)
    (selectWorker : TaskRow → Finset String → List WorkerRow → Option String)
    (ws : Nat) (jobId funcCode : String)
    (hnotasks : getJobTasks sys.db jobId = []) :
    (handleJobSubmission sys sendOk selectWorker ws jobId funcCode [] 0).2 =
      MessageType.jobAccepted ∧
    getJobTasks (handleJobSubmission sys sendOk selectWorker ws jobId funcCode [] 0).1.db jobId
      = [] ∧
    isJobComplete
      (getJobTasks (handleJobSubmission sys sendOk selectWorker ws jobId funcCode [] 0).1.db jobId)
      = false ∧
    getJobResults jobId
      (getJobTasks (handleJobSubmission sys sendOk selectWorker ws jobId funcCode [] 0).1.db jobId)
      = none := by
  have hfil : sys.db.tasks.filter (fun t => t.jobId = jobId) = [] := hnotasks
  have htasks :
      (handleJobSubmission sys sendOk selectWorker ws jobId funcCode [] 0).1.db.tasks =
        sys.db.tasks := by
    unfold handleJobSubmission assignTasksForJob
    dsimp only
    rw [show createTasksForJob jobId [] = [] from rfl, List.append_nil]
    unfold getPendingTasksOfJob
    rw [updateJobStatus_tasks]
    dsimp only
    rw [pending_filter_nil sys.db.tasks jobId hfil]
    simp [updateJobStatus_tasks]
  have hjt :
      getJobTasks (handleJobSubmission sys sendOk selectWorker ws jobId funcCode [] 0).1.db jobId
        = [] := by
    unfold getJobTasks
    rw [htasks]
    exact hfil
  exact ⟨rfl, hjt, by rw [hjt]; rfl, by rw [hjt]; rfl⟩

/-- Witness for C7 (amended) at the empty foreman state. -/
theorem C7_zero_task_job_not_complete_witness :
    (handleJobSubmission c7Empty (fun _ => true) (fun _ _ _ => none) 3 "JW" "g" [] 0).2 =
      MessageType.jobAccepted ∧
    getJobTasks (handleJobSubmission c7Empty (fun _ => true) (fun _ _ _ => none) 3 "JW" "g" [] 0).1.db "JW"
      = [] ∧
    isJobComplete
      (getJobTasks (handleJobSubmission c7Empty (fun _ => true) (fun _ _ _ => none) 3 "JW" "g" [] 0).1.db "JW")
      = false ∧
    getJobResults "JW"
      (getJobTasks (handleJobSubmission c7Empty (fun _ => true) (fun _ _ _ => none) 3 "JW" "g" [] 0).1.db "JW")
      = none :=
  C7_zero_task_job_not_complete c7Empty (fun _ => true) (fun _ _ _ => none) 3 "JW" "g" (by decide)

theorem updateWorkerTaskStats_tasks (db : DbState) (wid : String) (b : Bool) :
    (updateWorkerTaskStats db wid b).tasks = db.tasks := rfl

theorem completeTaskIfAssigned_rejected (db : DbState) (taskId workerId result : String)
    (h : (completeTaskIfAssigned db taskId workerId result).2.1 = false) :
    completeTaskIfAssigned db taskId workerId result = (db, false, none, none) := by
  unfold completeTaskIfAssigned at h ⊢
  cases hf : findTask db taskId with
  | none => rfl
  | some t =>
    rw [hf] at h
    dsimp only at h ⊢
    by_cases hc : t.status = "assigned" ∧ t.workerId = some workerId
    · rw [if_pos hc] at h
      exfalso
      cases hj : findJob (incrementJobCompletedTasks
          (updateTaskStatus db taskId "completed" (some workerId) (some result) none)
          t.jobId) t.jobId with
      | none => rw [hj] at h; simp at h
      | some j => rw [hj] at h; simp at h
    · rw [if_neg hc]

theorem markTaskCompleted_rejected (sys : Sys) (taskId jobId workerId result : String)
    (h : (completeTaskIfAssigned sys.db taskId workerId result).2.1 = false) :
    markTaskCompleted sys taskId jobId workerId result = (sys, false, false) := by
  unfold markTaskCompleted
  rw [completeTaskIfAssigned_rejected sys.db taskId workerId result h]
  dsimp only
  rw [if_pos rfl]

theorem handleJobCompletion_frame (sys : Sys) (jobId : String) :
    (handleJobCompletion sys jobId).db.workers = sys.db.workers ∧
    (handleJobCompletion sys jobId).db.tasks = sys.db.tasks ∧
    (handleJobCompletion sys jobId).conn = sys.conn := by
  unfold handleJobCompletion
  dsimp only
  cases hj : findJob sys.db jobId with
  | none => exact ⟨rfl, rfl, rfl⟩
  | some j =>
    cases hr : getJobResults jobId (getJobTasks sys.db jobId) with
    | none => exact ⟨rfl, rfl, rfl⟩
    | some results =>
      cases hc : getClientWebsocket sys.conn jobId with
      | none => exact ⟨rfl, rfl, rfl⟩
      | some w => exact ⟨rfl, rfl, rfl⟩

theorem findWorker_handleJobCompletion (s : Sys) (j wid : String) :
    findWorker (handleJobCompletion s j).db wid = findWorker s.db wid := by
  unfold findWorker
  rw [(handleJobCompletion_frame s j).1]

theorem assignTaskToAvailableWorker_noPending (sys : Sys) (sendOk : Nat → Bool)
    (selectTask : List TaskRow → String → Option TaskRow) (wid : String)
    (h : sys.db.tasks.filter (fun t => t.status = "pending") = []) :
    assignTaskToAvailableWorker sys sendOk selectTask wid = (sys, false) := by
  unfold assignTaskToAvailableWorker
  dsimp only
  rw [h]
  simp

theorem findWorker_updateWorkerTaskStats_done (db : DbState) (wid : String) :
    findWorker (updateWorkerTaskStats db wid true) wid =
      (findWorker db wid).map
        (fun w => { w with totalTasksCompleted := w.totalTasksCompleted + 1 }) := by
  unfold findWorker updateWorkerTaskStats
  dsimp only
  exact find?_map_update (fun w => w.id = wid)
    (fun w => { w with totalTasksCompleted := w.totalTasksCompleted + 1 })
    (fun w => Iff.rfl) db.workers

theorem findWorker_updateWorkerStatus_noTask (db : DbState) (wid status : String) :
    findWorker (updateWorkerStatus db wid status none) wid =
      (findWorker db wid).map (fun w => { w with status := status }) := by
  unfold findWorker updateWorkerStatus
  dsimp only [pyTruthyStr]
  exact find?_map_update (fun w => w.id = wid) (fun w => { w with status := status })
    (fun w => Iff.rfl) db.workers

/-- C9: when a registered worker's TASK_RESULT is rejected as stale or
duplicate by the compare-and-set, the handler still increments that worker's
total_tasks_completed and returns the worker to the available set — rejected
duplicates inflate the worker's success statistics.  (Stated with no pending
tasks so the trailing dispatch is a no-op.) -/
theorem C9_rejected_result_inflates_worker_stats (sys : Sys) (sendOk : Nat → Bool)
    (selectTask : List TaskRow → String → Option TaskRow) (ws : Nat)
    (jobId taskId result wid : String)
    (hfind : findWorkerByWebsocket sys.conn ws = some wid)
    (hrej : (completeTaskIfAssigned sys.db taskId wid result).2.1 = false)
    (hnp : sys.db.tasks.filter (fun t => t.status = "pending") = []) :
    (findWorker (handleTaskResult sys sendOk selectTask ws jobId taskId result).db wid).map
        (fun w => w.totalTasksCompleted) =
      (findWorker sys.db wid).map (fun w => w.totalTasksCompleted + 1) ∧
    wid ∈ (handleTaskResult sys sendOk selectTask ws jobId taskId result).conn.availableWorkers := by
  have hmid : handleTaskResult sys sendOk selectTask ws jobId taskId result =
      handleJobCompletion
        { sys with
            db := updateWorkerStatus (updateWorkerTaskStats sys.db wid true) wid "online" none,
            conn := markWorkerAvailable sys.conn wid } jobId := by
    unfold handleTaskResult
    rw [hfind]
    dsimp only
    rw [markTaskCompleted_rejected sys taskId jobId wid result hrej]
    dsimp only [pyTruthyPair]
    rw [if_pos rfl]
    have hX : (handleJobCompletion
        { sys with
            db := updateWorkerStatus (updateWorkerTaskStats sys.db wid true) wid "online" none,
            conn := markWorkerAvailable sys.conn wid } jobId).db.tasks.filter
          (fun t => t.status = "pending") = [] := by
      rw [(handleJobCompletion_frame _ jobId).2.1]
      dsimp only
      rw [updateWorkerStatus_tasks, updateWorkerTaskStats_tasks]
      exact hnp
    rw [assignTaskToAvailableWorker_noPending _ sendOk selectTask wid hX]
  rw [hmid]
  constructor
  · rw [findWorker_handleJobCompletion]
    dsimp only
    rw [findWorker_updateWorkerStatus_noTask, findWorker_updateWorkerTaskStats_done]
    cases findWorker sys.db wid <;> simp
  · rw [(handleJobCompletion_frame _ jobId).2.2]
    dsimp only
    exact mem_markWorkerAvailable sys.conn wid (findWorkerByWebsocket_isSome sys.conn ws wid hfind)

/-- Witness for C9 at the duplicate-TASK_RESULT state: W1's completion total
goes from 5 to 6 although the completion was rejected. -/
theorem C9_rejected_result_inflates_worker_stats_witness :
    (findWorker (handleTaskResult c1Sys (fun _ => true) (fun _ _ => none) 7 "J" "J_task_0" "11").db
        "W1").map (fun w => w.totalTasksCompleted) =
      (findWorker c1Sys.db "W1").map (fun w => w.totalTasksCompleted + 1) ∧
    "W1" ∈ (handleTaskResult c1Sys (fun _ => true) (fun _ _ => none) 7
        "J" "J_task_0" "11").conn.availableWorkers :=
  C9_rejected_result_inflates_worker_stats c1Sys (fun _ => true) (fun _ _ => none) 7
    "J" "J_task_0" "11" "W1" (by decide) (by decide) (by decide)
